import Mathlib

/-!
Shallow embedding of the core of `odoo-cli` (configuration resolution,
profile store, response cache, JSON-RPC client) together with proofs of
the specification claims about it.

Sources embedded:
- `odoo_cli/client.py`  : `retry_on_network_error`, `OdooClient.connect`,
  `OdooClient._ensure_connected`, `OdooClient._execute`
- `odoo_cli/config.py`  : `load_config`, `validate_config`
- `odoo_cli/cache.py`   : `get_cached`
- `odoo_cli/models/profile.py` : `ProfileManager` and its mutation API

Conventions: Python `None`-able values become `Option`; Python string
truthiness (`if value:`) becomes `s ≠ ""` on the wrapped string; the
ambient filesystem and clock are passed explicitly; exceptions become
`Except` or explicit result constructors.
-/

/-! ## Retry wrapper (`retry_on_network_error`, client.py lines 28-60)

One network attempt either returns a value, raises a transport-level
exception (`requests.exceptions.ConnectionError` / `Timeout`), or raises
an application-level error (the `ValueError` that `_jsonrpc_call` raises
when the JSON-RPC response carries an `error` member). -/

inductive Outcome (α : Type) where
  | ok (v : α)
  | transportFail (e : String)
  | appFail (e : String)
  deriving DecidableEq, Repr

/-- What the Python wrapper does overall: return the value, re-raise the
last transport error after exhausting retries, propagate an application
error immediately, or (only when `max_retries = 0`) fall off the loop
with `last_exception = None` and return Python `None`. -/
inductive RetryResult (α : Type) where
  | success (v : α)
  | raisedTransport (e : String)
  | raisedApp (e : String)
  | returnedNone
  deriving DecidableEq, Repr

/-- Trace of one run of the wrapped function: how many times the wrapped
function was invoked, how many `time.sleep(delay)` calls happened
(each sleeping the fixed `delay` passed to the decorator), and the
overall result. -/
structure RetryStats (α : Type) where
  attempts : Nat
  delays : Nat
  result : RetryResult α
  deriving DecidableEq, Repr

/-- The `for attempt in range(max_retries)` loop of the decorator.
`f i` is the outcome of the `(i+1)`-th call of the wrapped function;
`remaining` counts loop iterations still to run, `attempt` doubles as
the number of calls already made, `last` is `last_exception`.
A sleep happens only when `attempt < max_retries - 1`, i.e. when at
least one more iteration remains after this one. -/
def retryGo (f : Nat → Outcome α) : Nat → Nat → Nat → Option String → RetryStats α
  | 0, attempt, delays, last =>
      { attempts := attempt, delays := delays,
        result := match last with
          | some e => .raisedTransport e
          | none => .returnedNone }
  | r + 1, attempt, delays, _last =>
      match f attempt with
      | .ok v => { attempts := attempt + 1, delays := delays, result := .success v }
      | .appFail e => { attempts := attempt + 1, delays := delays, result := .raisedApp e }
      | .transportFail e =>
          retryGo f r (attempt + 1) (if 0 < r then delays + 1 else delays) (some e)

/-- `retry_on_network_error(max_retries, delay)` applied to a function
whose successive attempts behave as `f`.  The `delay` argument only
fixes the duration of each sleep (2.0 seconds at the one call site) and
does not influence control flow, so it is not threaded through. -/
def retry_on_network_error (max_retries : Nat) (f : Nat → Outcome α) : RetryStats α :=
  retryGo f max_retries 0 0 none

/-! ## The JSON-RPC client (client.py)

State relevant to the claims: the cached `uid` (Python `None` until the
first successful login; the server may also return a falsy `0`),
the `readonly` constructor flag, and the `_force_write` attribute that
`CliContext.client` / the `create-bulk` command set on the instance
(`models/context.py` line 37, `commands/create_bulk.py` line 79). -/

structure OdooClientState where
  uid : Option Nat
  readonly : Bool
  force_write : Bool
  deriving DecidableEq, Repr

/-- Outcome of the one login POST inside `connect`:
a `requests` exception, a JSON-RPC `error` member, or a `result`
member (possibly absent, hence `Option`). -/
inductive LoginOut where
  | netFail
  | rpcError
  | result (uid : Option Nat)
  deriving DecidableEq, Repr

/-- The network as the client sees it during one `_execute`:
the login outcome, and the outcome of the `i`-th dispatch POST made by
`_jsonrpc_call` (index counts retry attempts). -/
structure Transport (α : Type) where
  login : LoginOut
  dispatch : Nat → Outcome α

inductive ConnectOut where
  | connected (uid : Nat)
  | connectionError
  | authError
  deriving DecidableEq, Repr

/-- Python truthiness of `self.uid` (`None` and `0` are falsy). -/
def uidTruthy : Option Nat → Bool
  | none => false
  | some u => u ≠ 0

/-- `OdooClient.connect` (client.py lines 122-170).  Performs exactly one
network POST; on a transport failure raises `ConnectionError`; if the
response carries `error`, raises `ValueError` (authentication failed);
otherwise stores `data.get("result")` into `self.uid` and raises
`ValueError` when that value is falsy. -/
def OdooClient.connect (login : LoginOut) (c : OdooClientState) :
    ConnectOut × OdooClientState :=
  match login with
  | .netFail => (.connectionError, c)
  | .rpcError => (.authError, c)
  | .result u =>
      let c' := { c with uid := u }
      if uidTruthy u then (.connected (u.getD 0), c') else (.authError, c')

/-- `OdooClient.WRITE_METHODS` (client.py line 218). -/
def WRITE_METHODS : List String := ["create", "write", "unlink", "copy"]

/-- Overall outcome of `OdooClient._execute`. -/
inductive ExecOut (α : Type) where
  | ok (v : α)
  | connectionError
  | authError
  | permissionError
  | odooError (e : String)
  | networkError (e : String)
  /-- the retry wrapper fell off its loop and returned Python `None`
  (unreachable for `max_retries = 3`, but kept for totality) -/
  | noneResult
  deriving DecidableEq, Repr

/-- Trace of one `_execute` call: outcome, post-state, and how many
network POSTs were made, split into the login handshake POST of
`connect` and the dispatch POSTs of `_jsonrpc_call` (one per retry
attempt), plus the inter-attempt sleeps. -/
structure ExecTrace (α : Type) where
  out : ExecOut α
  state : OdooClientState
  loginCalls : Nat
  dispatchCalls : Nat
  delays : Nat
  deriving Repr

/-- `OdooClient._execute` (client.py lines 220-264): first
`_ensure_connected` (lines 172-175: connect iff `self.uid` is falsy),
then the read-only gate (lines 240-244), then the dispatch through
`_jsonrpc_call`, which is wrapped by `retry_on_network_error(3, 2.0)`.
Note the gate tests only `self.readonly`; the `_force_write` attribute
is never consulted anywhere in `OdooClient`. -/
def OdooClient.execute (t : Transport α) (c : OdooClientState) (method : String) :
    ExecTrace α :=
  -- _ensure_connected
  let conn : ConnectOut × OdooClientState × Nat :=
    if uidTruthy c.uid then (.connected (c.uid.getD 0), c, 0)
    else
      let r := OdooClient.connect t.login c
      (r.1, r.2, 1)
  match conn with
  | (.connectionError, c', n) =>
      { out := .connectionError, state := c', loginCalls := n,
        dispatchCalls := 0, delays := 0 }
  | (.authError, c', n) =>
      { out := .authError, state := c', loginCalls := n,
        dispatchCalls := 0, delays := 0 }
  | (.connected _, c', n) =>
      if c'.readonly && decide (method ∈ WRITE_METHODS) then
        { out := .permissionError, state := c', loginCalls := n,
          dispatchCalls := 0, delays := 0 }
      else
        let st := retry_on_network_error 3 t.dispatch
        { out := match st.result with
            | .success v => .ok v
            | .raisedApp e => .odooError e
            | .raisedTransport e => .networkError e
            | .returnedNone => .noneResult
          state := c', loginCalls := n, dispatchCalls := st.attempts,
          delays := st.delays }

/-! ## Profiles: data model (models/profile.py)

`Profile` mirrors the dataclass.  The source field `protected` is a Lean
keyword and is embedded as `prot`; the free-form `context` dict is
embedded as an association list (its values never influence control
flow). -/

structure Profile where
  name : String
  url : String
  db : String
  username : String
  password : String
  timeout : Int
  verify_ssl : Bool
  default : Bool
  readonly : Bool
  prot : Bool
  ctx : Option (List (String × String))
  deriving DecidableEq, Repr

/-- Legacy top-level config block of the profile store file
(`_load_profiles`, profile.py lines 136-144): string values may be
absent (`data.get` returning `None`), timeout/verify_ssl are defaulted
at load time. -/
structure LegacyConfig where
  url : Option String
  db : Option String
  username : Option String
  password : Option String
  timeout : Int
  verify_ssl : Bool
  deriving DecidableEq, Repr

/-- In-memory `ProfileManager` after `_load_profiles`: the `profiles`
dict (insertion-ordered, keys unique) as an association list keyed by
`Profile.name`, plus the optional legacy block. -/
structure ProfileManager where
  profiles : List Profile
  legacy : Option LegacyConfig
  deriving DecidableEq, Repr

/-- `self.profiles.get(n)` / `n in self.profiles`. -/
def lookupProfile (ps : List Profile) (n : String) : Option Profile :=
  ps.find? (fun p => p.name == n)

/-! ## Environment (process env plus `.env` discovery, config.py) -/

/-- The recognized environment variables (spec section 6), each
`Option` because `os.getenv` distinguishes unset from empty. -/
structure Env where
  odoo_url : Option String
  odoo_db : Option String
  odoo_database : Option String
  odoo_username : Option String
  odoo_password : Option String
  odoo_timeout : Option String
  odoo_verify_ssl : Option String
  odoo_profile : Option String
  odoo_no_verify_ssl : Option String
  deriving DecidableEq, Repr

/-- `load_dotenv(path, override=False)`: a variable from the file is
taken only when not already set in the process environment. -/
def dotenvMerge (e f : Env) : Env where
  odoo_url := e.odoo_url <|> f.odoo_url
  odoo_db := e.odoo_db <|> f.odoo_db
  odoo_database := e.odoo_database <|> f.odoo_database
  odoo_username := e.odoo_username <|> f.odoo_username
  odoo_password := e.odoo_password <|> f.odoo_password
  odoo_timeout := e.odoo_timeout <|> f.odoo_timeout
  odoo_verify_ssl := e.odoo_verify_ssl <|> f.odoo_verify_ssl
  odoo_profile := e.odoo_profile <|> f.odoo_profile
  odoo_no_verify_ssl := e.odoo_no_verify_ssl <|> f.odoo_no_verify_ssl

/-- Python string truthiness on an `Option String`: `None` and `""` are
falsy. -/
def optTruthy (o : Option String) : Bool :=
  !(o.getD "").isEmpty

/-- Python `a or b` on two `os.getenv` results. -/
def pyOr (a b : Option String) : Option String :=
  match a with
  | some s => if s.isEmpty then b else some s
  | none => b

/-- Python `str.lower()` (defined over the character list so that it
computes by kernel reduction). -/
def pyLower (s : String) : String :=
  ⟨s.data.map Char.toLower⟩

/-- Decimal digit-string to `Nat` (`none` when empty or non-digit). -/
def digitsToNat (cs : List Char) : Option Nat :=
  if cs.isEmpty then none
  else if cs.all (fun c => c.isDigit) then
    some (cs.foldl (fun n c => 10 * n + (c.toNat - 48)) 0)
  else none

/-- Python `int(s)` on a decimal string, as `Option`: optional
surrounding whitespace, optional sign, at least one digit; anything
else raises (here: `none`). -/
def pyToInt (s : String) : Option Int :=
  let t := s.data.dropWhile (fun c => c.isWhitespace)
  let t := (t.reverse.dropWhile (fun c => c.isWhitespace)).reverse
  match t with
  | '-' :: rest => (digitsToNat rest).map (fun n => -(n : Int))
  | '+' :: rest => (digitsToNat rest).map (fun n => (n : Int))
  | _ => (digitsToNat t).map (fun n => (n : Int))

/-- `ProfileManager.get_profile` (profile.py lines 146-180): explicit
name (truthy) wins and is looked up directly (absent names do NOT fall
through); else a truthy `ODOO_PROFILE` that names a stored profile;
else the first profile flagged default; else the first profile. -/
def ProfileManager.get_profile (pm : ProfileManager) (env : Env)
    (name : Option String) : Option Profile :=
  if optTruthy name then lookupProfile pm.profiles (name.getD "")
  else
    let envp := env.odoo_profile.getD ""
    if !envp.isEmpty && (lookupProfile pm.profiles envp).isSome then
      lookupProfile pm.profiles envp
    else
      match pm.profiles.find? (fun p => p.default) with
      | some p => some p
      | none => pm.profiles.head?

/-! ## Configuration resolution (config.py `load_config`) -/

/-- The accumulating `config` dict, restricted to the keys the code
reads or writes.  `Option` distinguishes an absent key; a Python key
explicitly set to `None` is conflated with an absent key (downstream
code only tests truthiness on these fields). -/
structure Config where
  url : Option String
  db : Option String
  username : Option String
  password : Option String
  timeout : Option Int
  verify_ssl : Option Bool
  readonly : Option Bool
  config_source : Option String
  profile : Option String
  deriving DecidableEq, Repr

/-- Contents of the ad-hoc `--config` JSON file, restricted to the
recognized keys.  Outer `Option` = key present in the JSON object,
inner `Option` = its value (`none` for JSON `null`). -/
structure ConfigPatch where
  url : Option (Option String)
  db : Option (Option String)
  username : Option (Option String)
  password : Option (Option String)
  timeout : Option (Option Int)
  verify_ssl : Option (Option Bool)
  deriving DecidableEq, Repr

/-- `config.update(file_config)`: present keys overwrite. -/
def Config.applyPatch (c : Config) (p : ConfigPatch) : Config where
  url := p.url.getD c.url
  db := p.db.getD c.db
  username := p.username.getD c.username
  password := p.password.getD c.password
  timeout := p.timeout.getD c.timeout
  verify_ssl := p.verify_ssl.getD c.verify_ssl
  readonly := c.readonly
  config_source := c.config_source
  profile := c.profile

/-- `config.update(profile.to_config())` (profile.py lines 31-42): all
six connection keys plus `readonly` and `_profile` are overwritten. -/
def Config.applyProfile (c : Config) (p : Profile) : Config where
  url := some p.url
  db := some p.db
  username := some p.username
  password := some p.password
  timeout := some p.timeout
  verify_ssl := some p.verify_ssl
  readonly := some p.readonly
  config_source := c.config_source
  profile := some p.name

/-- `config.update(self._legacy_config)` fallback. -/
def Config.applyLegacy (c : Config) (l : LegacyConfig) : Config where
  url := l.url
  db := l.db
  username := l.username
  password := l.password
  timeout := some l.timeout
  verify_ssl := some l.verify_ssl
  readonly := c.readonly
  config_source := c.config_source
  profile := c.profile

/-- State of the ad-hoc `--config` file on disk. -/
inductive FileState where
  | missing
  /-- the file exists but `json.load` (or applying a non-object
  document with `dict.update`) raises -/
  | invalid
  | parsed (p : ConfigPatch)
  deriving DecidableEq, Repr

/-- The arguments of `load_config` (config.py lines 113-122).
`config_file = none` covers both "flag not passed" and a falsy empty
path (the code guards with `if config_file:`). -/
structure LoadArgs where
  config_file : Option FileState
  profile : Option String
  url : Option String
  db : Option String
  username : Option String
  password : Option String
  timeout : Option Int
  verify_ssl : Option Bool
  deriving DecidableEq, Repr

/-- Ambient state `load_config` consults: the process environment, the
sequence of existing env files on the `get_config_search_paths` search
path (in order, with the recognized variables each defines), and the
profile store as loaded by `ProfileManager`. -/
structure Ambient where
  env : Env
  envFiles : List (String × Env)
  pm : ProfileManager
  deriving Repr

/-- `os.getenv('ODOO_VERIFY_SSL', '').lower() not in ('false','0','no')`. -/
def envVerifySsl (e : Env) : Bool :=
  !(["false", "0", "no"].contains (pyLower (e.odoo_verify_ssl.getD "")))

/-- `os.getenv('ODOO_NO_VERIFY_SSL', '').lower() in ('true','1','yes')`. -/
def envNoVerifySsl (e : Env) : Bool :=
  ["true", "1", "yes"].contains (pyLower (e.odoo_no_verify_ssl.getD ""))

/-- The environment after the `.env` discovery loop: every existing
file is loaded with `override=False`, in search order. -/
def Ambient.mergedEnv (amb : Ambient) : Env :=
  amb.envFiles.foldl (fun e pf => dotenvMerge e pf.2) amb.env

/-- `load_config` (config.py lines 113-229), step by step in source
order: start empty; load `.env` files (recording the first existing
path as `_config_source`); copy the recognized environment variables
in (`db` via `ODOO_DB or ODOO_DATABASE`, `timeout` int-parsed with
fallback 30, `verify_ssl` always computed); apply the ad-hoc JSON
config file when supplied and existing (an unparsable file raises out
of `load_config` — the `Except.error` case); apply the selected
profile (or the legacy block) on top; apply the per-invocation
overrides; fill timeout/verify_ssl defaults; finally force
`verify_ssl := false` when `ODOO_NO_VERIFY_SSL` is truthy (that last
check is split off below as the `map` step of `load_config`, mirroring
config.py lines 226-227). -/
def load_config_pre (amb : Ambient) (args : LoadArgs) : Except Unit Config := do
  let c0 : Config :=
    ⟨none, none, none, none, none, none, none, none, none⟩
  let env' := amb.mergedEnv
  let c1 := { c0 with
    config_source := amb.envFiles.head?.map Prod.fst }
  let c2 : Config := { c1 with
    url := match env'.odoo_url with | some v => some v | none => c1.url
    db := match pyOr env'.odoo_db env'.odoo_database with
      | some v => some v | none => c1.db
    username := match env'.odoo_username with | some v => some v | none => c1.username
    password := match env'.odoo_password with | some v => some v | none => c1.password
    timeout := match env'.odoo_timeout with
      | some v => some ((pyToInt v).getD 30) | none => c1.timeout
    verify_ssl := some (envVerifySsl env') }
  let c3 ← match args.config_file with
    | none => pure c2
    | some .missing => pure c2
    | some .invalid => throw ()
    | some (.parsed p) => pure (c2.applyPatch p)
  let profile_name := pyOr args.profile env'.odoo_profile
  let c4 := match amb.pm.get_profile env' profile_name with
    | some p =>
        { (c3.applyProfile p) with config_source := some ("profile:" ++ p.name) }
    | none =>
        match amb.pm.legacy with
        | some l => c3.applyLegacy l
        | none => c3
  let c5 : Config := { c4 with
    url := match args.url with | some v => some v | none => c4.url
    db := match args.db with | some v => some v | none => c4.db
    username := match args.username with | some v => some v | none => c4.username
    password := match args.password with | some v => some v | none => c4.password
    timeout := match args.timeout with | some v => some v | none => c4.timeout
    verify_ssl := match args.verify_ssl with | some v => some v | none => c4.verify_ssl }
  pure { c5 with
    timeout := some (c5.timeout.getD 30)
    verify_ssl := some (c5.verify_ssl.getD true) }

/-- `load_config` (config.py lines 113-229): the merge above, then the
final check for the `ODOO_NO_VERIFY_SSL` flag, applied AFTER every
other source including the per-invocation overrides. -/
def load_config (amb : Ambient) (args : LoadArgs) : Except Unit Config :=
  (load_config_pre amb args).map
    (fun c =>
      if envNoVerifySsl amb.mergedEnv then { c with verify_ssl := some false } else c)

/-- `config.get(key)` for the four required keys of `validate_config`. -/
def Config.getKey (c : Config) : String → Option String
  | "url" => c.url
  | "db" => c.db
  | "username" => c.username
  | "password" => c.password
  | _ => none

/-- `missing = [key for key in required if not config.get(key)]`
(config.py line 243). -/
def missingKeys (c : Config) : List String :=
  ["url", "db", "username", "password"].filter (fun k => !optTruthy (c.getKey k))

/-- `validate_config` (config.py lines 232-257): raises `ValueError`
carrying the joined `missing` list iff any required key is falsy.
The error payload here is the `missing` list itself (the raised
message embeds `', '.join(missing)` plus static help text). -/
def validate_config (c : Config) : Except (List String) Unit :=
  if missingKeys c = [] then .ok () else .error (missingKeys c)

/-! ## Response cache (`get_cached`, cache.py lines 33-75)

The backing file for one cache key is either absent, unparsable
(`json.load` raises), or a parsed JSON object with an optional
`_timestamp` (a number, or some other JSON value — modeled by a
string, which is what distinguishes the `TypeError` path) and an
optional `data` payload.  Timestamps and the clock are modeled as
integers: only ordering and subtraction matter here. -/

inductive TsVal where
  | num (t : Int)
  | str (s : String)
  deriving DecidableEq, Repr

inductive CacheFile where
  | invalidJson
  | entry (ts : Option TsVal) (data : Option String)
  deriving DecidableEq, Repr

/-- `get_cached(cache_key, ttl_seconds)` against the state of the one
backing file; returns the payload (or `none` for a miss) and the state
of the file afterwards.  Faithful control flow:
- missing file: miss, nothing to delete;
- `json.load` raises: caught by the blanket `except`, miss, file KEPT;
- falsy `_timestamp` (absent, `0`, `""`): file deleted, miss;
- truthy non-numeric `_timestamp`: the subtraction `time.time() -
  stored_time` raises `TypeError`, caught, miss, file KEPT;
- numeric timestamp with `now - t > ttl`: file deleted, miss;
- otherwise: hit, returns the `data` member (Python `None` when the
  key is absent), file kept. -/
def get_cached (now ttl : Int) (file : Option CacheFile) :
    Option String × Option CacheFile :=
  match file with
  | none => (none, none)
  | some .invalidJson => (none, some .invalidJson)
  | some (.entry ts d) =>
      match ts with
      | none => (none, none)
      | some (.num t) =>
          if t = 0 then (none, none)
          else if now - t > ttl then (none, none)
          else (d, some (.entry ts d))
      | some (.str s) =>
          if s.isEmpty then (none, none)
          else (none, some (.entry ts d))

/-! ## Profile store mutations (models/profile.py lines 282-506)

`PMState` pairs the in-memory `profiles` dict with the semantic content
of the backing store file.  `_save_profiles` rewrites the whole file
from `self.profiles` with a deterministic dump, so "the store file is
byte-identical" is equivalent to `savedFile` being unchanged. -/

structure PMState where
  profiles : List Profile
  savedFile : List Profile
  deriving DecidableEq, Repr

inductive PMResult where
  | ok
  | notFound
  | alreadyExists
  | protectedProfile
  | requiresConfirmation
  deriving DecidableEq, Repr

def hasProfile (ps : List Profile) (n : String) : Bool :=
  (lookupProfile ps n).isSome

/-- `ProfileManager.add_profile` (lines 312-362): duplicate names are
rejected before anything is touched; a requested default first clears
the flag on every existing profile; the new profile is appended
(fresh dict key) with `protected=False`, `context=None`; the store is
saved. -/
def PMState.add_profile (s : PMState) (name url db username password : String)
    (timeout : Int) (verify_ssl default readonly : Bool) : PMResult × PMState :=
  if hasProfile s.profiles name then (.alreadyExists, s)
  else
    let ps := if default
      then s.profiles.map (fun p => { p with default := false })
      else s.profiles
    let newp : Profile :=
      ⟨name, url, db, username, password, timeout, verify_ssl, default,
        readonly, false, none⟩
    let ps' := ps ++ [newp]
    (.ok, ⟨ps', ps'⟩)

/-- The `**kwargs` of `update_profile`; a key present with value
`None` behaves like an absent key in every check the code makes, so
plain `Option` suffices. -/
structure UpdateArgs where
  url : Option String
  db : Option String
  username : Option String
  password : Option String
  timeout : Option Int
  verify_ssl : Option Bool
  readonly : Option Bool
  deriving DecidableEq, Repr

/-- The field-update block of `update_profile` (lines 399-413): string
fields only when truthy, the rest only when not `None`. -/
def applyUpdate (p : Profile) (kw : UpdateArgs) : Profile :=
  { p with
    url := match kw.url with
      | some v => if v.isEmpty then p.url else v
      | none => p.url
    db := match kw.db with
      | some v => if v.isEmpty then p.db else v
      | none => p.db
    username := match kw.username with
      | some v => if v.isEmpty then p.username else v
      | none => p.username
    password := match kw.password with
      | some v => if v.isEmpty then p.password else v
      | none => p.password
    timeout := kw.timeout.getD p.timeout
    verify_ssl := kw.verify_ssl.getD p.verify_ssl
    readonly := kw.readonly.getD p.readonly }

/-- `ProfileManager.update_profile` (lines 364-416): not-found, then
protected, then the readonly-removal confirmation gate, then the
in-place field update followed by a save. -/
def PMState.update_profile (s : PMState) (name : String) (confirmed : Bool)
    (kw : UpdateArgs) : PMResult × PMState :=
  match lookupProfile s.profiles name with
  | none => (.notFound, s)
  | some p =>
      if p.prot then (.protectedProfile, s)
      else if kw.readonly == some false && p.readonly && !confirmed then
        (.requiresConfirmation, s)
      else
        let ps' := s.profiles.map
          (fun q => if q.name == name then applyUpdate q kw else q)
        (.ok, ⟨ps', ps'⟩)

/-- `ProfileManager.delete_profile` (lines 418-443). -/
def PMState.delete_profile (s : PMState) (name : String) : PMResult × PMState :=
  match lookupProfile s.profiles name with
  | none => (.notFound, s)
  | some p =>
      if p.prot then (.protectedProfile, s)
      else
        let ps' := s.profiles.filter (fun q => q.name != name)
        (.ok, ⟨ps', ps'⟩)

/-- `ProfileManager.rename_profile` (lines 445-482).  NOTE the source
order of the guards: old-name existence, then NEW-NAME COLLISION, and
only then the protected check — a protected profile renamed onto an
existing name reports `AlreadyExists`, not `Protected`.  On success the
(mutated, re-keyed) profile ends up appended under the new key and the
old key is deleted. -/
def PMState.rename_profile (s : PMState) (old_name new_name : String) :
    PMResult × PMState :=
  match lookupProfile s.profiles old_name with
  | none => (.notFound, s)
  | some p =>
      if hasProfile s.profiles new_name then (.alreadyExists, s)
      else if p.prot then (.protectedProfile, s)
      else
        let renamed := { p with name := new_name }
        let ps' := (s.profiles ++ [renamed]).filter (fun q => q.name != old_name)
        (.ok, ⟨ps', ps'⟩)

/-- `ProfileManager.set_default` (lines 484-505): not-found first; then
every profile's flag is cleared and the named profile's flag set, in
place; then a save. -/
def PMState.set_default (s : PMState) (name : String) : PMResult × PMState :=
  if !hasProfile s.profiles name then (.notFound, s)
  else
    let ps := s.profiles.map (fun p => { p with default := false })
    let ps' := ps.map (fun p => if p.name == name then { p with default := true } else p)
    (.ok, ⟨ps', ps'⟩)

/-! ## Operation sequences over the store (for the default-uniqueness
invariant) -/

inductive StoreOp where
  | add (name url db username password : String) (timeout : Int)
        (verify_ssl default readonly : Bool)
  | setDefault (name : String)
  deriving DecidableEq, Repr

def PMState.applyOp (s : PMState) : StoreOp → PMState
  | .add n u d un pw t v df r => (s.add_profile n u d un pw t v df r).2
  | .setDefault n => (s.set_default n).2

def PMState.applyOps (s : PMState) (ops : List StoreOp) : PMState :=
  ops.foldl PMState.applyOp s

/-- Number of profiles flagged default. -/
def defaultCount (ps : List Profile) : Nat :=
  (ps.filter (fun p => p.default)).length

/-- Names are pairwise distinct — the Python dict representation
invariant. -/
def uniqueNames (ps : List Profile) : Prop :=
  (ps.map (fun p => p.name)).Nodup

/-! ## Claim C4: retry bounds -/

/-- C4: every RPC dispatch is retried with a bounded policy: a
transport that fails twice then succeeds yields a successful overall
call with exactly 3 underlying attempts and two inter-attempt delays
(each the fixed 2-second `delay`); a transport that always fails
yields exactly 3 attempts and then re-raises the last transport error
unchanged; an application-level rejection on the first attempt yields
exactly 1 attempt and is never retried. -/
theorem C4_retry_bounds :
    (∀ (f : Nat → Outcome α) (e0 e1 : String) (v : α),
      f 0 = .transportFail e0 → f 1 = .transportFail e1 → f 2 = .ok v →
      retry_on_network_error 3 f = ⟨3, 2, .success v⟩) ∧
    (∀ (f : Nat → Outcome α) (g : Nat → String),
      (∀ i, i < 3 → f i = .transportFail (g i)) →
      retry_on_network_error 3 f = ⟨3, 2, .raisedTransport (g 2)⟩) ∧
    (∀ (f : Nat → Outcome α) (e : String),
      f 0 = .appFail e →
      retry_on_network_error 3 f = ⟨1, 0, .raisedApp e⟩) := by
  refine ⟨?_, ?_, ?_⟩
  · intro f e0 e1 v h0 h1 h2
    simp [retry_on_network_error, retryGo, h0, h1, h2]
  · intro f g h
    have h0 := h 0 (by norm_num)
    have h1 := h 1 (by norm_num)
    have h2 := h 2 (by norm_num)
    simp [retry_on_network_error, retryGo, h0, h1, h2]
  · intro f e h0
    simp [retry_on_network_error, retryGo, h0]

/-- Witness for C4 at concrete transports. -/
theorem C4_retry_bounds_witness :
    retry_on_network_error 3
        (fun i => if i < 2 then Outcome.transportFail "refused" else .ok (42 : Nat))
      = ⟨3, 2, .success 42⟩ ∧
    retry_on_network_error 3 (fun _ => (Outcome.transportFail "timeout" : Outcome Nat))
      = ⟨3, 2, .raisedTransport "timeout"⟩ ∧
    retry_on_network_error 3 (fun _ => (Outcome.appFail "rejected" : Outcome Nat))
      = ⟨1, 0, .raisedApp "rejected"⟩ := by
  refine ⟨C4_retry_bounds.1 _ "refused" "refused" 42 rfl rfl rfl,
    C4_retry_bounds.2.1 _ (fun _ => "timeout") (fun i _ => rfl),
    C4_retry_bounds.2.2 _ "rejected" rfl⟩

/-! ## Claim C1: the read-only gate and network calls -/

/-- C1 counterexample: a freshly constructed client (`uid = None`)
with `readonly = true` and `_force_write` unset, on `create`, does
fail with `PermissionError` — but `_ensure_connected` runs FIRST
(client.py line 237 before line 240), so the login handshake POST is
sent and the network-call counter is 1, not 0 as the claim states. -/
theorem C1_counterexample :
    (OdooClient.execute ⟨.result (some 7), fun _ => Outcome.ok (0 : Nat)⟩
        ⟨none, true, false⟩ "create").out = .permissionError ∧
    (OdooClient.execute ⟨.result (some 7), fun _ => Outcome.ok (0 : Nat)⟩
        ⟨none, true, false⟩ "create").loginCalls +
      (OdooClient.execute ⟨.result (some 7), fun _ => Outcome.ok (0 : Nat)⟩
        ⟨none, true, false⟩ "create").dispatchCalls = 1 := by
  exact ⟨rfl, rfl⟩

/-- C1 (amended): for a client with `readonly = true` (regardless of
`_force_write`), a mutating call fails with `PermissionError` and the
dispatch request is never sent; no network call at all is made when
the client is already authenticated, but on a fresh client the login
handshake (one POST) is performed before the gate fires. -/
theorem C1_readonly_gate (t : Transport α) (c : OdooClientState) (method : String)
    (hm : method ∈ WRITE_METHODS) (hro : c.readonly = true) :
    (uidTruthy c.uid = true →
      (OdooClient.execute t c method).out = .permissionError ∧
      (OdooClient.execute t c method).loginCalls = 0 ∧
      (OdooClient.execute t c method).dispatchCalls = 0) ∧
    (∀ u : Nat, c.uid = none → t.login = .result (some u) → u ≠ 0 →
      (OdooClient.execute t c method).out = .permissionError ∧
      (OdooClient.execute t c method).loginCalls = 1 ∧
      (OdooClient.execute t c method).dispatchCalls = 0) := by
  constructor
  · intro hu
    simp [OdooClient.execute, hu, hro, hm]
  · intro u hnone hlogin hu
    simp [OdooClient.execute, hnone, hlogin, OdooClient.connect, uidTruthy, hu, hro, hm]

/-- Witness for C1 (amended) at a concrete transport and client. -/
theorem C1_readonly_gate_witness :
    ((OdooClient.execute ⟨.result (some 7), fun _ => Outcome.ok (0 : Nat)⟩
        ⟨some 5, true, false⟩ "create").out = .permissionError ∧
      (OdooClient.execute ⟨.result (some 7), fun _ => Outcome.ok (0 : Nat)⟩
        ⟨some 5, true, false⟩ "create").loginCalls = 0 ∧
      (OdooClient.execute ⟨.result (some 7), fun _ => Outcome.ok (0 : Nat)⟩
        ⟨some 5, true, false⟩ "create").dispatchCalls = 0) ∧
    ((OdooClient.execute ⟨.result (some 7), fun _ => Outcome.ok (0 : Nat)⟩
        ⟨none, true, false⟩ "unlink").out = .permissionError ∧
      (OdooClient.execute ⟨.result (some 7), fun _ => Outcome.ok (0 : Nat)⟩
        ⟨none, true, false⟩ "unlink").loginCalls = 1 ∧
      (OdooClient.execute ⟨.result (some 7), fun _ => Outcome.ok (0 : Nat)⟩
        ⟨none, true, false⟩ "unlink").dispatchCalls = 0) := by
  refine ⟨(C1_readonly_gate _ _ "create" (by decide) rfl).1 rfl,
    (C1_readonly_gate _ _ "unlink" (by decide) rfl).2 7 rfl rfl (by decide)⟩

/-! ## Claim C2: the force-write escape hatch -/

/-- C2: the claim says a mutating call on a readonly client with the
force flag set proceeds to the network layer.  The code sets
`_force_write` (models/context.py line 37, create_bulk.py line 79,
documented as "override readonly") but `OdooClient._execute` never
reads it: the gate still raises `PermissionError` and sends no
dispatch request.  Evaluated at the failing input — an authenticated
readonly client with `force_write = true` calling `create`. -/
theorem C2_force_write_ignored :
    (OdooClient.execute ⟨.result (some 7), fun _ => Outcome.ok (0 : Nat)⟩
        ⟨some 5, true, true⟩ "create").out = .permissionError ∧
    (OdooClient.execute ⟨.result (some 7), fun _ => Outcome.ok (0 : Nat)⟩
        ⟨some 5, true, true⟩ "create").dispatchCalls = 0 := by
  exact ⟨rfl, rfl⟩

/-! ## Claim C3: configuration precedence -/

/-- C3: the claim (and the module docstring of config.py, lines 5-10)
puts environment variables ABOVE the ad-hoc `--config` JSON file.
The code applies the JSON file with `config.update` AFTER copying the
environment variables in (config.py lines 161-188), so the file wins.
Evaluated at the failing input: `ODOO_URL=http://env-url` in the
process environment, `--config` file containing
`{"url": "http://file-url"}`, no profile, no override — the resolved
`url` is the file's value, where the documented precedence requires
the environment's. -/
theorem C3_config_file_overrides_env :
    load_config
        ⟨⟨some "http://env-url", none, none, none, none, none, none, none, none⟩,
          [], ⟨[], none⟩⟩
        ⟨some (.parsed ⟨some (some "http://file-url"), none, none, none, none, none⟩),
          none, none, none, none, none, none, none⟩
      = .ok ⟨some "http://file-url", none, none, none, some 30, some true,
          none, none, none⟩ ∧
    ("http://file-url" : String) ≠ "http://env-url" := by
  exact ⟨rfl, by decide⟩

/-! ## Claim C9: resolution never fails; validation lists what is
missing -/

/-- C9 counterexample: `load_config` DOES fail when the `--config`
argument names an existing file whose contents `json.load` cannot
parse (config.py lines 183-188 have no try/except) — the claim says
resolution never fails for any combination of inputs and ambient
state, explicitly including ad-hoc config file contents. -/
theorem C9_counterexample :
    load_config
        ⟨⟨none, none, none, none, none, none, none, none, none⟩, [], ⟨[], none⟩⟩
        ⟨some .invalid, none, none, none, none, none, none, none⟩
      = .error () := rfl

/-- C9 (amended): resolution never fails EXCEPT when an explicit
`--config` file exists but cannot be parsed/applied as a JSON object;
missing required values are detected only by the separate
`validate_config` step, which fails exactly when some of
{url, db, username, password} is falsy and reports exactly the falsy
ones (in that fixed order). -/
theorem C9_resolution_total (amb : Ambient) (args : LoadArgs)
    (h : args.config_file ≠ some .invalid) :
    (∃ c, load_config amb args = .ok c) ∧
    (∀ c : Config, (validate_config c = .ok () ↔ missingKeys c = []) ∧
      (missingKeys c ≠ [] → validate_config c = .error (missingKeys c))) := by
  constructor
  · obtain ⟨cf, pr, u, d, un, pw, tm, vs⟩ := args
    cases cf with
    | none => exact ⟨_, rfl⟩
    | some fs =>
      cases fs with
      | missing => exact ⟨_, rfl⟩
      | invalid => exact absurd rfl h
      | parsed p => exact ⟨_, rfl⟩
  · intro c
    constructor
    · unfold validate_config
      split <;> simp_all
    · intro hmk
      unfold validate_config
      split
      · exact absurd (by assumption) hmk
      · rfl

/-- Witness for C9 at a concrete ambient state, plus the validate
behavior on the empty resolved config. -/
theorem C9_resolution_total_witness :
    (∃ c, load_config
        ⟨⟨none, none, none, none, none, none, none, none, none⟩, [], ⟨[], none⟩⟩
        ⟨none, none, none, none, none, none, none, none⟩ = .ok c) ∧
    (validate_config ⟨none, none, none, none, none, none, none, none, none⟩
        = .error ["url", "db", "username", "password"]) := by
  have h := C9_resolution_total
    ⟨⟨none, none, none, none, none, none, none, none, none⟩, [], ⟨[], none⟩⟩
    ⟨none, none, none, none, none, none, none, none⟩ (by decide)
  refine ⟨h.1, ?_⟩
  have h2 := (h.2 ⟨none, none, none, none, none, none, none, none, none⟩).2 (by decide)
  simpa using h2

/-! ## Claim C10: ODOO_NO_VERIFY_SSL is applied after all overrides -/

/-- `load_dotenv(..., override=False)` never displaces a variable
already set in the process environment. -/
theorem foldl_dotenv_no_verify (e : Env) (files : List (String × Env)) (s : String)
    (h : e.odoo_no_verify_ssl = some s) :
    (files.foldl (fun acc pf => dotenvMerge acc pf.2) e).odoo_no_verify_ssl = some s := by
  induction files generalizing e with
  | nil => exact h
  | cons f l ih =>
    apply ih
    simp [dotenvMerge, h]

/-- C10: whenever the process environment sets `ODOO_NO_VERIFY_SSL`
to `true`, `1` or `yes` (case-insensitive), the resolved config has
`verify_ssl = false`, regardless of every other source — including an
explicit per-invocation `verify_ssl := true` override and the selected
profile — because the check runs after all overrides. -/
theorem C10_no_verify_ssl_wins (amb : Ambient) (args : LoadArgs) (s : String)
    (hset : amb.env.odoo_no_verify_ssl = some s)
    (hval : pyLower s ∈ ["true", "1", "yes"])
    (c : Config) (hc : load_config amb args = .ok c) :
    c.verify_ssl = some false := by
  have hm : amb.mergedEnv.odoo_no_verify_ssl = some s :=
    foldl_dotenv_no_verify amb.env amb.envFiles s hset
  have henv : envNoVerifySsl amb.mergedEnv = true := by
    simp only [envNoVerifySsl, hm, Option.getD_some]
    simpa using hval
  unfold load_config at hc
  cases hpre : load_config_pre amb args with
  | error e => rw [hpre] at hc; simp [Except.map] at hc
  | ok c6 =>
    rw [hpre] at hc
    simp only [Except.map, henv, if_true] at hc
    cases hc
    rfl

/-- Witness for C10: `ODOO_NO_VERIFY_SSL=TRUE` in the process
environment beats an explicit `verify_ssl := true` override. -/
theorem C10_no_verify_ssl_wins_witness :
    load_config
        ⟨⟨none, none, none, none, none, none, none, none, some "TRUE"⟩, [], ⟨[], none⟩⟩
        ⟨none, none, none, none, none, none, none, some true⟩
      = .ok ⟨none, none, none, none, some 30, some false, none, none, none⟩ ∧
    (⟨none, none, none, none, some 30, some false, none, none, none⟩ : Config).verify_ssl
      = some false := by
  refine ⟨rfl, ?_⟩
  exact C10_no_verify_ssl_wins
    ⟨⟨none, none, none, none, none, none, none, none, some "TRUE"⟩, [], ⟨[], none⟩⟩
    ⟨none, none, none, none, none, none, none, some true⟩ "TRUE" rfl (by decide) _ rfl

/-! ## Claim C8: cache corruption handling -/

/-- C8 counterexample: on an UNPARSABLE entry (`json.load` raises) the
blanket `except` of `get_cached` (cache.py lines 73-75) returns a miss
but does NOT delete the backing file — the claim says every expired,
unreadable or unparsable entry is deleted. -/
theorem C8_counterexample :
    get_cached 1000 60 (some .invalidJson) = (none, some .invalidJson) ∧
    (get_cached 1000 60 (some .invalidJson)).2 ≠ none := by
  exact ⟨rfl, by decide⟩

/-- C8 (amended): `get_cached` never raises and returns absent in
every non-valid case, but deletes the backing file only for a missing
or falsy `_timestamp` and for expiry; a file that fails to parse, or
whose truthy `_timestamp` is not a number (the `TypeError` path), is
left in place while still returning a miss.  A valid entry returns its
`data` member and keeps the file. -/
theorem C8_cache_miss_behavior (now ttl : Int) (d : Option String) :
    (get_cached now ttl none = (none, none)) ∧
    (get_cached now ttl (some .invalidJson) = (none, some .invalidJson)) ∧
    (get_cached now ttl (some (.entry none d)) = (none, none)) ∧
    (get_cached now ttl (some (.entry (some (.num 0)) d)) = (none, none)) ∧
    (get_cached now ttl (some (.entry (some (.str "")) d)) = (none, none)) ∧
    (∀ s : String, s.isEmpty = false →
      get_cached now ttl (some (.entry (some (.str s)) d)) =
        (none, some (.entry (some (.str s)) d))) ∧
    (∀ t : Int, t ≠ 0 → now - t > ttl →
      get_cached now ttl (some (.entry (some (.num t)) d)) = (none, none)) ∧
    (∀ t : Int, t ≠ 0 → now - t ≤ ttl →
      get_cached now ttl (some (.entry (some (.num t)) d)) =
        (d, some (.entry (some (.num t)) d))) := by
  refine ⟨rfl, rfl, rfl, rfl, rfl, ?_, ?_, ?_⟩
  · intro s hs
    simp [get_cached, hs]
  · intro t ht hexp
    simp [get_cached, ht, hexp]
  · intro t ht hexp
    simp [get_cached, ht, not_lt.mpr hexp]

/-- Witness for C8 at concrete clock, TTL, payload and timestamps. -/
theorem C8_cache_miss_behavior_witness :
    (get_cached 100 10 (some (.entry (some (.str "late")) (some "v"))) =
      (none, some (.entry (some (.str "late")) (some "v")))) ∧
    (get_cached 100 10 (some (.entry (some (.num 50)) (some "v"))) = (none, none)) ∧
    (get_cached 100 10 (some (.entry (some (.num 95)) (some "v"))) =
      (some "v", some (.entry (some (.num 95)) (some "v")))) := by
  refine ⟨(C8_cache_miss_behavior 100 10 (some "v")).2.2.2.2.2.1 "late" rfl,
    (C8_cache_miss_behavior 100 10 (some "v")).2.2.2.2.2.2.1 50 (by decide) (by decide),
    (C8_cache_miss_behavior 100 10 (some "v")).2.2.2.2.2.2.2 95 (by decide) (by decide)⟩


/-! ## Claim C5: the readonly-removal confirmation gate -/

/-- Updating entries in place (a `List.map` keyed on the name)
commutes with lookup when the update preserves names. -/
theorem lookupProfile_map_if (ps : List Profile) (n : String)
    (f : Profile → Profile) (hf : ∀ q, (f q).name = q.name) :
    lookupProfile (ps.map fun q => if q.name == n then f q else q) n
      = (lookupProfile ps n).map fun q => if q.name == n then f q else q := by
  unfold lookupProfile
  rw [List.find?_map]
  have hp : ((fun p => p.name == n) ∘ fun q => if q.name == n then f q else q)
      = (fun p => p.name == n) := by
    funext q
    by_cases hq : (q.name == n) = true
    · simp [Function.comp, hq, hf]
    · rw [Bool.not_eq_true] at hq
      simp [Function.comp, hq, hf]
  rw [hp]

/-- C5: on a stored profile that is currently `readonly = true` and
not protected, `update_profile(name, readonly=false)` without
confirmation fails with `RequiresConfirmation` and changes neither the
profiles nor the backing file; the same call with `confirmed = true`
succeeds, and a subsequent lookup observes `readonly = false`, with
the backing file rewritten to match. -/
theorem C5_confirmation_gate (s : PMState) (name : String) (p : Profile)
    (hp : lookupProfile s.profiles name = some p)
    (hro : p.readonly = true) (hprot : p.prot = false) :
    (s.update_profile name false ⟨none, none, none, none, none, none, some false⟩
        = (.requiresConfirmation, s)) ∧
    ((s.update_profile name true ⟨none, none, none, none, none, none, some false⟩).1
        = .ok) ∧
    (lookupProfile
        (s.update_profile name true
          ⟨none, none, none, none, none, none, some false⟩).2.profiles name
      = some { p with readonly := false }) ∧
    ((s.update_profile name true
        ⟨none, none, none, none, none, none, some false⟩).2.savedFile
      = (s.update_profile name true
          ⟨none, none, none, none, none, none, some false⟩).2.profiles) := by
  have hp' : List.find? (fun q => q.name == name) s.profiles = some p := hp
  have hpn : (p.name == name) = true := by
    simpa using List.find?_some hp'
  have hkey := lookupProfile_map_if s.profiles name
    (fun q => applyUpdate q ⟨none, none, none, none, none, none, some false⟩)
    (fun q => rfl)
  beta_reduce at hkey
  refine ⟨?_, ?_, ?_, ?_⟩
  · simp [PMState.update_profile, hp, hprot, hro]
  · simp [PMState.update_profile, hp, hprot, hro]
  · simp only [PMState.update_profile, hp, hprot, hro, Bool.not_true,
      Bool.and_false, Bool.false_eq_true, if_false]
    rw [hkey, hp, Option.map_some', if_pos hpn]
    simp [applyUpdate, hprot]
  · simp [PMState.update_profile, hp, hprot, hro]

/-- Witness for C5 on a one-profile store. -/
theorem C5_confirmation_gate_witness :
    ((⟨[⟨"staging", "https://stg", "db", "admin", "pw", 30, true, true, true,
          false, none⟩],
        [⟨"staging", "https://stg", "db", "admin", "pw", 30, true, true, true,
          false, none⟩]⟩ : PMState).update_profile "staging" false
        ⟨none, none, none, none, none, none, some false⟩
      = (.requiresConfirmation,
          ⟨[⟨"staging", "https://stg", "db", "admin", "pw", 30, true, true, true,
              false, none⟩],
            [⟨"staging", "https://stg", "db", "admin", "pw", 30, true, true, true,
              false, none⟩]⟩)) ∧
    (lookupProfile
        ((⟨[⟨"staging", "https://stg", "db", "admin", "pw", 30, true, true, true,
              false, none⟩],
            [⟨"staging", "https://stg", "db", "admin", "pw", 30, true, true, true,
              false, none⟩]⟩ : PMState).update_profile "staging" true
          ⟨none, none, none, none, none, none, some false⟩).2.profiles "staging"
      = some ⟨"staging", "https://stg", "db", "admin", "pw", 30, true, true, false,
          false, none⟩) := by
  have h := C5_confirmation_gate
    ⟨[⟨"staging", "https://stg", "db", "admin", "pw", 30, true, true, true,
        false, none⟩],
      [⟨"staging", "https://stg", "db", "admin", "pw", 30, true, true, true,
        false, none⟩]⟩
    "staging"
    ⟨"staging", "https://stg", "db", "admin", "pw", 30, true, true, true,
      false, none⟩ rfl rfl rfl
  exact ⟨h.1, h.2.2.1⟩

/-! ## Claim C6: protected profiles -/

/-- C6 counterexample: renaming a PROTECTED profile onto an existing
name fails with `AlreadyExists`, not `Protected` — the new-name
collision check (profile.py line 459) runs before the protected check
(line 465).  Store: protected `prod` plus unprotected `staging`. -/
theorem C6_counterexample :
    ((⟨[⟨"prod", "https://prod", "db", "admin", "pw", 30, true, false, false,
          true, none⟩,
        ⟨"staging", "https://stg", "db", "admin", "pw", 30, true, false, false,
          false, none⟩],
        [⟨"prod", "https://prod", "db", "admin", "pw", 30, true, false, false,
          true, none⟩,
        ⟨"staging", "https://stg", "db", "admin", "pw", 30, true, false, false,
          false, none⟩]⟩ : PMState).rename_profile "prod" "staging").1
      = .alreadyExists ∧
    PMResult.alreadyExists ≠ PMResult.protectedProfile := by
  exact ⟨rfl, by decide⟩

/-- C6 (amended): on a profile with `protected = true`, `update` and
`delete` always fail with `Protected`; `rename` fails with
`AlreadyExists` when the new name is already taken and with
`Protected` otherwise; in every case the in-memory store and the
backing file are left unchanged (no partial mutation). -/
theorem C6_protected_store_invariant (s : PMState) (name : String) (p : Profile)
    (hp : lookupProfile s.profiles name = some p) (hprot : p.prot = true) :
    (∀ confirmed kw, s.update_profile name confirmed kw = (.protectedProfile, s)) ∧
    (s.delete_profile name = (.protectedProfile, s)) ∧
    (∀ new_name, s.rename_profile name new_name =
      ((if hasProfile s.profiles new_name then PMResult.alreadyExists
        else PMResult.protectedProfile), s)) := by
  refine ⟨?_, ?_, ?_⟩
  · intro confirmed kw
    simp [PMState.update_profile, hp, hprot]
  · simp [PMState.delete_profile, hp, hprot]
  · intro new_name
    by_cases h : hasProfile s.profiles new_name
    · simp [PMState.rename_profile, hp, hprot, h]
    · simp [PMState.rename_profile, hp, hprot, h]

/-- Witness for C6 on a concrete two-profile store. -/
theorem C6_protected_store_invariant_witness :
    ((⟨[⟨"prod", "https://prod", "db", "admin", "pw", 30, true, false, false,
          true, none⟩,
        ⟨"staging", "https://stg", "db", "admin", "pw", 30, true, false, false,
          false, none⟩],
        [⟨"prod", "https://prod", "db", "admin", "pw", 30, true, false, false,
          true, none⟩,
        ⟨"staging", "https://stg", "db", "admin", "pw", 30, true, false, false,
          false, none⟩]⟩ : PMState).update_profile "prod" false
        ⟨some "https://x", none, none, none, none, none, none⟩).1
      = .protectedProfile ∧
    ((⟨[⟨"prod", "https://prod", "db", "admin", "pw", 30, true, false, false,
          true, none⟩,
        ⟨"staging", "https://stg", "db", "admin", "pw", 30, true, false, false,
          false, none⟩],
        [⟨"prod", "https://prod", "db", "admin", "pw", 30, true, false, false,
          true, none⟩,
        ⟨"staging", "https://stg", "db", "admin", "pw", 30, true, false, false,
          false, none⟩]⟩ : PMState).delete_profile "prod").1
      = .protectedProfile ∧
    ((⟨[⟨"prod", "https://prod", "db", "admin", "pw", 30, true, false, false,
          true, none⟩,
        ⟨"staging", "https://stg", "db", "admin", "pw", 30, true, false, false,
          false, none⟩],
        [⟨"prod", "https://prod", "db", "admin", "pw", 30, true, false, false,
          true, none⟩,
        ⟨"staging", "https://stg", "db", "admin", "pw", 30, true, false, false,
          false, none⟩]⟩ : PMState).rename_profile "prod" "fresh")
      = (.protectedProfile,
          ⟨[⟨"prod", "https://prod", "db", "admin", "pw", 30, true, false, false,
              true, none⟩,
            ⟨"staging", "https://stg", "db", "admin", "pw", 30, true, false, false,
              false, none⟩],
            [⟨"prod", "https://prod", "db", "admin", "pw", 30, true, false, false,
              true, none⟩,
            ⟨"staging", "https://stg", "db", "admin", "pw", 30, true, false, false,
              false, none⟩]⟩) := by
  have h := C6_protected_store_invariant
    ⟨[⟨"prod", "https://prod", "db", "admin", "pw", 30, true, false, false,
        true, none⟩,
      ⟨"staging", "https://stg", "db", "admin", "pw", 30, true, false, false,
        false, none⟩],
      [⟨"prod", "https://prod", "db", "admin", "pw", 30, true, false, false,
        true, none⟩,
      ⟨"staging", "https://stg", "db", "admin", "pw", 30, true, false, false,
        false, none⟩]⟩ "prod"
    ⟨"prod", "https://prod", "db", "admin", "pw", 30, true, false, false,
      true, none⟩ rfl rfl
  refine ⟨by rw [h.1 false ⟨some "https://x", none, none, none, none, none, none⟩],
    by rw [h.2.1], (h.2.2 "fresh").trans (by decide)⟩

/-! ## Claim C7: at most one default profile -/

/-- `n in self.profiles` in terms of the name list. -/
theorem hasProfile_iff (ps : List Profile) (n : String) :
    hasProfile ps n = true ↔ n ∈ ps.map (fun p => p.name) := by
  rw [hasProfile, lookupProfile, List.find?_isSome]
  simp [List.mem_map]

/-- Clearing every default flag leaves no default profile. -/
theorem defaultCount_clear (ps : List Profile) :
    defaultCount (ps.map fun p => { p with default := false }) = 0 := by
  induction ps with
  | nil => rfl
  | cons a l ih => simp [defaultCount, List.filter_cons, ih]

/-- Mapping a name-preserving function over the store does not change
the name list. -/
theorem names_map_preserve (ps : List Profile) (f : Profile → Profile)
    (hf : ∀ p, (f p).name = p.name) :
    (ps.map f).map (fun p => p.name) = ps.map (fun p => p.name) := by
  induction ps with
  | nil => rfl
  | cons a l ih => simp [hf, ih]

/-- With pairwise-distinct names (the dict invariant), at most one
entry matches a given name. -/
theorem filter_name_le_one (ps : List Profile) (n : String) (hn : uniqueNames ps) :
    (ps.filter (fun p => p.name == n)).length ≤ 1 := by
  induction ps with
  | nil => simp
  | cons a l ih =>
    rw [uniqueNames, List.map_cons, List.nodup_cons] at hn
    rw [List.filter_cons]
    by_cases h : (a.name == n) = true
    · rw [if_pos h]
      have han : a.name = n := by simpa using h
      have hz : l.filter (fun p => p.name == n) = [] := by
        rw [List.filter_eq_nil_iff]
        intro q hq hqn
        have hq' : q.name = n := by simpa using hqn
        have : a.name ∈ List.map (fun p => p.name) l := by
          rw [han, ← hq']
          exact List.mem_map.mpr ⟨q, hq, rfl⟩
        exact hn.1 this
      simp [hz]
    · rw [if_neg h]
      exact ih hn.2

/-- The number of default flags after mapping `f` equals the count of
elements on which `f` sets the flag. -/
theorem defaultCount_map (l : List Profile) (f : Profile → Profile)
    (p : Profile → Bool) (hf : ∀ q, (f q).default = p q) :
    defaultCount (l.map f) = (l.filter p).length := by
  induction l with
  | nil => rfl
  | cons a l2 ih =>
    rw [List.map_cons, defaultCount, List.filter_cons, List.filter_cons]
    by_cases h : p a = true
    · rw [if_pos (by rw [hf]; exact h), if_pos h]
      simp only [List.length_cons]
      exact congrArg (· + 1) ih
    · rw [if_neg (by rw [hf]; exact h), if_neg h]
      exact ih

/-- `set_default`'s clear-then-set passes leave exactly as many
default flags as there are entries with the given name. -/
theorem set_default_count (ps : List Profile) (n : String) (hn : uniqueNames ps) :
    defaultCount ((ps.map fun p => { p with default := false }).map
        fun p => if p.name == n then { p with default := true } else p) ≤ 1 := by
  rw [List.map_map]
  rw [defaultCount_map ps _ (fun q => q.name == n) (fun q => by
    by_cases h : (q.name == n) = true
    · have h2 : q.name = n := by simpa using h
      simp [h, h2]
    · have h2 : ¬q.name = n := by simpa using h
      rw [Bool.not_eq_true] at h
      simp [h2, h])]
  exact filter_name_le_one ps n hn

/-- Clearing every default flag does not change the name list. -/
theorem names_clear (ps : List Profile) :
    (ps.map fun p => { p with default := false }).map (fun p => p.name)
      = ps.map (fun p => p.name) :=
  names_map_preserve ps _ (fun _ => rfl)

/-- The set-the-named-default pass does not change the name list. -/
theorem names_set_pass (ps : List Profile) (n : String) :
    ((ps.map fun p => if p.name == n then { p with default := true } else p).map
      (fun p => p.name)) = ps.map (fun p => p.name) :=
  names_map_preserve ps _ (fun p => by
    by_cases h : (p.name == n) = true
    · simp [h]
    · rw [Bool.not_eq_true] at h
      simp [h])

/-- `add_profile` preserves name uniqueness and default uniqueness. -/
theorem add_profile_preserves (s : PMState)
    (hn : uniqueNames s.profiles) (hd : defaultCount s.profiles ≤ 1)
    (name url db username password : String) (timeout : Int)
    (verify_ssl default readonly : Bool) :
    uniqueNames (s.add_profile name url db username password timeout
        verify_ssl default readonly).2.profiles ∧
    defaultCount (s.add_profile name url db username password timeout
        verify_ssl default readonly).2.profiles ≤ 1 := by
  by_cases h : hasProfile s.profiles name = true
  · unfold PMState.add_profile
    rw [if_pos h]
    exact ⟨hn, hd⟩
  · rw [Bool.not_eq_true] at h
    have hmem : name ∉ s.profiles.map (fun p => p.name) := by
      intro hm
      have := (hasProfile_iff s.profiles name).mpr hm
      rw [h] at this
      exact Bool.false_ne_true this
    unfold PMState.add_profile
    rw [if_neg (by simp [h])]
    cases default with
    | true =>
      rw [if_pos rfl]
      dsimp only
      constructor
      · unfold uniqueNames
        rw [List.map_append, names_clear]
        exact ((List.perm_append_singleton _ _).nodup_iff).mpr
          (List.nodup_cons.mpr ⟨hmem, hn⟩)
      · rw [defaultCount, List.filter_append, List.length_append]
        have h1 := defaultCount_clear s.profiles
        rw [defaultCount] at h1
        rw [h1]
        simp [List.filter_cons]
    | false =>
      rw [if_neg (by simp)]
      dsimp only
      constructor
      · unfold uniqueNames
        rw [List.map_append]
        exact ((List.perm_append_singleton _ _).nodup_iff).mpr
          (List.nodup_cons.mpr ⟨hmem, hn⟩)
      · rw [defaultCount, List.filter_append, List.length_append]
        rw [defaultCount] at hd
        simpa [List.filter_cons] using hd

/-- `set_default` preserves name uniqueness and default uniqueness. -/
theorem set_default_preserves (s : PMState) (n : String)
    (hn : uniqueNames s.profiles) (hd : defaultCount s.profiles ≤ 1) :
    uniqueNames (s.set_default n).2.profiles ∧
    defaultCount (s.set_default n).2.profiles ≤ 1 := by
  by_cases h : hasProfile s.profiles n = true
  · unfold PMState.set_default
    rw [if_neg (by simp [h])]
    dsimp only
    constructor
    · unfold uniqueNames
      rw [names_set_pass, names_clear]
      exact hn
    · exact set_default_count s.profiles n hn
  · unfold PMState.set_default
    rw [Bool.not_eq_true] at h
    rw [if_pos (by simp [h])]
    exact ⟨hn, hd⟩

/-- One store operation preserves both invariants. -/
theorem applyOp_preserves (s : PMState) (op : StoreOp)
    (hn : uniqueNames s.profiles) (hd : defaultCount s.profiles ≤ 1) :
    uniqueNames (s.applyOp op).profiles ∧
    defaultCount (s.applyOp op).profiles ≤ 1 := by
  cases op with
  | add n u d un pw t v df r => exact add_profile_preserves s hn hd n u d un pw t v df r
  | setDefault n => exact set_default_preserves s n hn hd

/-- C7: starting from a store whose names are distinct (the dict
representation invariant) and which has at most one default profile,
any sequence of `add_profile` / `set_default` operations keeps at most
one profile flagged default (a requested default first clears the flag
everywhere else); failing operations — duplicate name on add, unknown
name on set-default — return an error and change nothing. -/
theorem C7_default_uniqueness (s : PMState) (ops : List StoreOp)
    (hn : uniqueNames s.profiles) (hd : defaultCount s.profiles ≤ 1) :
    (uniqueNames (s.applyOps ops).profiles ∧
      defaultCount (s.applyOps ops).profiles ≤ 1) ∧
    (∀ n u d un pw t v df r, hasProfile s.profiles n = true →
      s.add_profile n u d un pw t v df r = (.alreadyExists, s)) ∧
    (∀ n, hasProfile s.profiles n = false →
      s.set_default n = (.notFound, s)) := by
  refine ⟨?_, ?_, ?_⟩
  · induction ops generalizing s with
    | nil => exact ⟨hn, hd⟩
    | cons op rest ih =>
      have step := applyOp_preserves s op hn hd
      exact ih (s.applyOp op) step.1 step.2
  · intro n u d un pw t v df r hdup
    unfold PMState.add_profile
    rw [if_pos hdup]
  · intro n hmiss
    unfold PMState.set_default
    rw [if_pos (by simp [hmiss])]

/-- Witness for C7 on a concrete store and operation sequence. -/
theorem C7_default_uniqueness_witness :
    (defaultCount
        ((⟨[⟨"alpha", "https://a", "db", "u", "p", 30, true, true, false,
              false, none⟩],
            [⟨"alpha", "https://a", "db", "u", "p", 30, true, true, false,
              false, none⟩]⟩ : PMState).applyOps
          [.add "beta" "https://b" "db" "u" "p" 30 true true false,
            .setDefault "alpha"]).profiles ≤ 1) ∧
    ((⟨[⟨"alpha", "https://a", "db", "u", "p", 30, true, true, false,
          false, none⟩],
        [⟨"alpha", "https://a", "db", "u", "p", 30, true, true, false,
          false, none⟩]⟩ : PMState).add_profile "alpha" "https://x" "db" "u" "p"
        30 true false false
      = (.alreadyExists,
          ⟨[⟨"alpha", "https://a", "db", "u", "p", 30, true, true, false,
              false, none⟩],
            [⟨"alpha", "https://a", "db", "u", "p", 30, true, true, false,
              false, none⟩]⟩)) ∧
    ((⟨[⟨"alpha", "https://a", "db", "u", "p", 30, true, true, false,
          false, none⟩],
        [⟨"alpha", "https://a", "db", "u", "p", 30, true, true, false,
          false, none⟩]⟩ : PMState).set_default "gamma"
      = (.notFound,
          ⟨[⟨"alpha", "https://a", "db", "u", "p", 30, true, true, false,
              false, none⟩],
            [⟨"alpha", "https://a", "db", "u", "p", 30, true, true, false,
              false, none⟩]⟩)) := by
  have h := C7_default_uniqueness
    ⟨[⟨"alpha", "https://a", "db", "u", "p", 30, true, true, false,
        false, none⟩],
      [⟨"alpha", "https://a", "db", "u", "p", 30, true, true, false,
        false, none⟩]⟩
    [.add "beta" "https://b" "db" "u" "p" 30 true true false,
      .setDefault "alpha"]
    (by simp [uniqueNames]) (by decide)
  exact ⟨h.1.2, h.2.1 "alpha" "https://x" "db" "u" "p" 30 true false false rfl,
    h.2.2 "gamma" rfl⟩
